import Mathlib

/-!
Verification of the in-process asynchronous task orchestrator
(`backend/app/services/async_task_manager.py`).

The manager's state is embedded shallowly: the `_tasks` dict, the `_running_tasks`
handle map, the FIFO `_pending_queue`, the concurrency configuration, the bounded
database write queue (`asyncio.Queue(maxsize=1000)`), the user-id cache and the
per-task progress-throttle cache all become fields of `ManagerState`, and every
manager operation becomes a pure state transformer.

Modelling conventions:
- wall-clock values (`datetime.utcnow()`, `time.time()`) are passed in explicitly
  as an integer number of seconds (`Int`); every time comparison made by the code
  (elapsed ≥ 3.0 s) is exact at integral instants;
- `uuid.uuid4()` is modelled by passing the fresh id explicitly;
- each call to `asyncio.Queue.put_nowait` on the database write queue is recorded
  in the history field `issued_writes` (the requests issued), while `db_queue`
  holds only the requests the bounded queue accepted: a request issued while the
  queue already holds 1000 entries is dropped, exactly as the `except QueueFull`
  branches do;
- `loop.create_task(...)` calls that merely schedule deferred log work are
  recorded (`pending_log_appends`, `scheduled_flushes`); the later execution of a
  scheduled `_add_to_log_buffer` is modelled separately by `addToLogBuffer`,
  which tracks the non-reentrant `asyncio.Lock` guarding the buffer;
- Python float arithmetic in `update_task_progress`
  (`int(5 + (completed_batches / total_batches) * 90)`) is modelled by exact
  natural-number floor division; the two agree at every input appearing in the
  theorems below, where the float computation is exact;
- database transactions themselves (`_do_sync_to_db`, `_do_add_log`) and the
  background worker lifecycle are outside the model: the claims under study end
  at the write requests handed to the worker queue.
-/

namespace Testflow

set_option maxRecDepth 8000

/-- Task status enum `AsyncTaskStatus` of the source. -/
inductive AsyncTaskStatus
  | pending
  | running
  | completed
  | failed
  | cancelled
  | timeout
deriving DecidableEq

/-- Terminal statuses, as enumerated by `cleanup_completed_tasks` and the spec. -/
def AsyncTaskStatus.isTerminal : AsyncTaskStatus → Bool
  | .completed => true
  | .failed => true
  | .cancelled => true
  | .timeout => true
  | _ => false

/-- The in-memory task record (dataclass `AsyncTask`). Opaque payloads
(`result`, `request_params`) are modelled as strings. -/
structure AsyncTask where
  task_id : String
  task_type : String
  status : AsyncTaskStatus
  progress : Int
  total_batches : Nat
  completed_batches : Nat
  result : Option String
  error : Option String
  message : Option String
  request_params : Option String
  user_id : Option Nat
  created_at : Int
  started_at : Option Int
  completed_at : Option Int
deriving DecidableEq

/-- A write request handed to the database worker queue: either a task state
snapshot (`(task_id, AsyncTask)` pair) or a single log entry
(`(task_id, log_data)` with `log_data["type"] == "log"`). The shutdown
sentinel is the `(None, None)` pair enqueued by `_stop_db_worker`. -/
inductive SyncWriteRequest
  | snapshot (task_id : String) (task : AsyncTask)
  | logEntry (task_id : String) (level : String) (message : String)
  | shutdownSentinel
deriving DecidableEq

/-- One entry of the per-task progress throttle cache `_progress_cache`. -/
structure ProgressCacheEntry where
  last_progress : Int
  last_update_time : Int
  pending_message : Option String
deriving DecidableEq

/-- A debug/info log record destined for the batching buffer:
`(task_id, level, message)`. -/
structure LogBufferEntry where
  task_id : String
  level : String
  message : String
deriving DecidableEq

/-- Association-list lookup (Python dict `get`). -/
def alookup {α : Type} : List (String × α) → String → Option α
  | [], _ => none
  | (k, v) :: rest, key => if k = key then some v else alookup rest key

/-- Association-list insertion/overwrite (Python dict item assignment). -/
def aset {α : Type} : List (String × α) → String → α → List (String × α)
  | [], key, v => [(key, v)]
  | (k, w) :: rest, key, v =>
      if k = key then (key, v) :: rest else (k, w) :: aset rest key v

/-- Association-list key removal (Python `del d[key]`, guarded by `key in d`). -/
def aremove {α : Type} : List (String × α) → String → List (String × α)
  | [], _ => []
  | (k, w) :: rest, key => if k = key then rest else (k, w) :: aremove rest key

/-- Class constant `DEFAULT_MAX_CONCURRENT_TASKS`. -/
def DEFAULT_MAX_CONCURRENT_TASKS : Nat := 3

/-- Class constant `DEFAULT_TASK_TIMEOUT` (seconds). -/
def DEFAULT_TASK_TIMEOUT : Nat := 300

/-- Class constant `DEFAULT_RETRY_COUNT`. -/
def DEFAULT_RETRY_COUNT : Nat := 3

/-- Class constant `DEFAULT_QUEUE_SIZE`. -/
def DEFAULT_QUEUE_SIZE : Nat := 100

/-- Class constant `DEFAULT_LOG_LEVEL`. -/
def DEFAULT_LOG_LEVEL : String := "info"

/-- Class constant `_LOG_BATCH_SIZE`: the log buffer flushes at this size. -/
def LOG_BATCH_SIZE : Nat := 10

/-- Class constant `_PROGRESS_UPDATE_THRESHOLD` (percentage points). -/
def PROGRESS_UPDATE_THRESHOLD : Int := 5

/-- Class constant `_PROGRESS_UPDATE_INTERVAL` (seconds, `3.0` in the source). -/
def PROGRESS_UPDATE_INTERVAL : Int := 3

/-- Capacity of the database write queue, `asyncio.Queue(maxsize=1000)`. -/
def DB_QUEUE_MAXSIZE : Nat := 1000

/-- The whole mutable state of one `AsyncTaskManager` instance. -/
structure ManagerState where
  /-- `self._tasks : Dict[str, AsyncTask]`. -/
  tasks : List (String × AsyncTask)
  /-- Keys of `self._running_tasks : Dict[str, asyncio.Task]` (the cancellable
  handles themselves are opaque; only membership is observable here). -/
  running_tasks : List String
  /-- `self._pending_queue : List[str]`. -/
  pending_queue : List String
  /-- `self._max_concurrent_tasks`. -/
  max_concurrent_tasks : Nat
  /-- `self._task_timeout` (seconds). -/
  task_timeout : Nat
  /-- `self._retry_count`. -/
  retry_count : Nat
  /-- `self._queue_size`. -/
  queue_size : Nat
  /-- `self._log_level`. -/
  log_level : String
  /-- `self._task_user_ids : Dict[str, int]`. -/
  task_user_ids : List (String × Nat)
  /-- Contents of the bounded write queue `self._db_queue`, in arrival order. -/
  db_queue : List SyncWriteRequest
  /-- History of every `put_nowait` attempt on `self._db_queue`, in program
  order, whether or not the bounded queue accepted it. -/
  issued_writes : List SyncWriteRequest
  /-- Debug/info records whose `_add_to_log_buffer` coroutine has been scheduled
  with `loop.create_task` but has not run yet. -/
  pending_log_appends : List LogBufferEntry
  /-- Number of `_flush_log_buffer` coroutines scheduled with `loop.create_task`
  by the terminal transitions and not yet run. -/
  scheduled_flushes : Nat
  /-- `self._progress_cache : Dict[str, Dict]`. -/
  progress_cache : List (String × ProgressCacheEntry)
deriving DecidableEq

/-- A freshly constructed manager (`AsyncTaskManager.__init__`) after loading a
concurrency configuration with the given cap and queue capacity. -/
def initState (max_concurrent queue_capacity : Nat) : ManagerState :=
  { tasks := []
    running_tasks := []
    pending_queue := []
    max_concurrent_tasks := max_concurrent
    task_timeout := DEFAULT_TASK_TIMEOUT
    retry_count := DEFAULT_RETRY_COUNT
    queue_size := queue_capacity
    log_level := DEFAULT_LOG_LEVEL
    task_user_ids := []
    db_queue := []
    issued_writes := []
    pending_log_appends := []
    scheduled_flushes := 0
    progress_cache := [] }

/-- `get_running_task_count`, counting over the task map. -/
def runningCount (tasks : List (String × AsyncTask)) : Nat :=
  tasks.countP (fun kv => kv.2.status == AsyncTaskStatus.running)

/-- `AsyncTaskManager.get_running_task_count`. -/
def getRunningTaskCount (s : ManagerState) : Nat :=
  runningCount s.tasks

/-- `AsyncTaskManager.get_pending_task_count`. -/
def getPendingTaskCount (s : ManagerState) : Nat :=
  s.pending_queue.length

/-- `AsyncTaskManager.can_start_new_task`. -/
def canStartNewTask (s : ManagerState) : Bool :=
  decide (getRunningTaskCount s < s.max_concurrent_tasks)

/-- `AsyncTaskManager.is_queue_full`. -/
def isQueueFull (s : ManagerState) : Bool :=
  decide (s.queue_size ≤ s.pending_queue.length)

/-- `AsyncTaskManager._sync_to_db`: enqueue a state snapshot on the bounded
write queue with `put_nowait`; on `QueueFull` the request is dropped with a
warning. (The lazy worker start performed here is lifecycle management with no
effect on the modelled state.) -/
def syncToDb (s : ManagerState) (task_id : String) (task : AsyncTask) : ManagerState :=
  let req := SyncWriteRequest.snapshot task_id task
  let s := { s with issued_writes := s.issued_writes ++ [req] }
  if s.db_queue.length < DB_QUEUE_MAXSIZE then
    { s with db_queue := s.db_queue ++ [req] }
  else
    s

/-- The numeric rank of a log level, `levels.get(level, 1)` in `_should_log`. -/
def logLevelRank (level : String) : Nat :=
  if level = "debug" then 0
  else if level = "info" then 1
  else if level = "warning" then 2
  else if level = "error" then 3
  else 1

/-- `AsyncTaskManager._should_log`. -/
def shouldLog (threshold level : String) : Bool :=
  decide (logLevelRank threshold ≤ logLevelRank level)

/-- `AsyncTaskManager.add_log`: below-threshold records are discarded;
error/warning records are put on the write queue immediately (dropped when the
queue is full); debug/info records get an `_add_to_log_buffer` coroutine
scheduled with `loop.create_task`. -/
def addLog (s : ManagerState) (task_id message level : String) : ManagerState :=
  if shouldLog s.log_level level = false then s
  else if level = "error" ∨ level = "warning" then
    let req := SyncWriteRequest.logEntry task_id level message
    let s := { s with issued_writes := s.issued_writes ++ [req] }
    if s.db_queue.length < DB_QUEUE_MAXSIZE then
      { s with db_queue := s.db_queue ++ [req] }
    else
      s
  else
    { s with pending_log_appends :=
        (s.pending_log_appends ++ [{ task_id := task_id, level := level, message := message }]) }

/-- `AsyncTaskManager.create_task`: refuse when the pending queue is full
(`ValueError`, the CapacityExceeded failure), otherwise insert a fresh PENDING
record and, when the concurrency cap is reached, append its id to the pending
queue. The fresh uuid and the creation instant are passed in. -/
def createTask (s : ManagerState) (task_type : String) (total_batches : Nat)
    (new_id : String) (now : Int) : Except String String × ManagerState :=
  if isQueueFull s then
    (Except.error "task queue is full, please retry later", s)
  else
    let task : AsyncTask :=
      { task_id := new_id
        task_type := task_type
        status := AsyncTaskStatus.pending
        progress := 0
        total_batches := total_batches
        completed_batches := 0
        result := none
        error := none
        message := none
        request_params := none
        user_id := none
        created_at := now
        started_at := none
        completed_at := none }
    let s := { s with tasks := aset s.tasks new_id task }
    let s :=
      if canStartNewTask s then s
      else { s with pending_queue := s.pending_queue ++ [new_id] }
    (Except.ok new_id, s)

/-- `AsyncTaskManager.get_task`. -/
def getTask (s : ManagerState) (task_id : String) : Option AsyncTask :=
  alookup s.tasks task_id

/-- `AsyncTaskManager.register_running_task` (dict assignment of the handle). -/
def registerRunningTask (s : ManagerState) (task_id : String) : ManagerState :=
  if s.running_tasks.contains task_id then s
  else { s with running_tasks := s.running_tasks ++ [task_id] }

/-- `AsyncTaskManager.update_task_progress`: store the batch count and derive
`progress = int(5 + (completed_batches / total_batches) * 90)` when
`total_batches > 0`, then request a snapshot write. -/
def updateTaskProgress (s : ManagerState) (task_id : String)
    (completed_batches : Nat) : ManagerState :=
  match alookup s.tasks task_id with
  | none => s
  | some task =>
      let task := { task with completed_batches := completed_batches }
      let task :=
        if 0 < task.total_batches then
          { task with progress :=
              ((5 + 90 * completed_batches / task.total_batches : Nat) : Int) }
        else task
      let s := { s with tasks := aset s.tasks task_id task }
      syncToDb s task_id task

/-- Python truthiness of the optional `message` argument (`if message:`). -/
def msgTruthy : Option String → Bool
  | none => false
  | some m => !(m == "")

/-- `AsyncTaskManager.update_progress`: clamp the argument into `[0, 100]`,
overwrite the message when truthy, and request a snapshot write exactly when
the throttle condition `should_update` of the source holds; otherwise only the
cache's pending message changes. -/
def updateProgress (s : ManagerState) (task_id : String) (progress : Int)
    (message : Option String) (now : Int) : ManagerState :=
  match alookup s.tasks task_id with
  | none => s
  | some task =>
      let task := { task with progress := min (max progress 0) 100 }
      let task :=
        if msgTruthy message then { task with message := message } else task
      let s := { s with tasks := aset s.tasks task_id task }
      let cache := (alookup s.progress_cache task_id).getD
        { last_progress := -1, last_update_time := 0, pending_message := none }
      let progress_delta := |task.progress - cache.last_progress|
      let time_delta := now - cache.last_update_time
      if progress = 0 ∨ progress = 100 ∨ cache.last_progress = -1
          ∨ PROGRESS_UPDATE_THRESHOLD ≤ progress_delta
          ∨ PROGRESS_UPDATE_INTERVAL ≤ time_delta then
        let s := syncToDb s task_id task
        let cache := { cache with last_progress := task.progress, last_update_time := now }
        { s with progress_cache := aset s.progress_cache task_id cache }
      else
        if msgTruthy message then
          { s with progress_cache :=
              (aset s.progress_cache task_id { cache with pending_message := message }) }
        else s

/-- `AsyncTaskManager.force_progress_update`: unconditionally request a
snapshot write for a task present in the map, then refresh the throttle cache
entry when one exists (no entry is created when absent). -/
def forceProgressUpdate (s : ManagerState) (task_id : String) (now : Int) : ManagerState :=
  match alookup s.tasks task_id with
  | none => s
  | some task =>
      let s := syncToDb s task_id task
      match alookup s.progress_cache task_id with
      | none => s
      | some cache =>
          { s with progress_cache := (aset s.progress_cache task_id
              { cache with last_progress := task.progress, last_update_time := now }) }

/-- `AsyncTaskManager.start_task`: refuse (and enqueue the id) when the
concurrency cap is reached and the id is not already queued; otherwise remove
the id from the pending queue, mark the task RUNNING with progress 5 and the
start timestamp, request a snapshot write and log the start. -/
def startTask (s : ManagerState) (task_id : String) (now : Int) : Bool × ManagerState :=
  match alookup s.tasks task_id with
  | none => (false, s)
  | some task =>
      if !(canStartNewTask s) && !(s.pending_queue.contains task_id) then
        (false, { s with pending_queue := s.pending_queue ++ [task_id] })
      else
        let s := { s with pending_queue := s.pending_queue.erase task_id }
        let task := { task with
          status := AsyncTaskStatus.running
          started_at := some now
          progress := 5 }
        let s := { s with tasks := aset s.tasks task_id task }
        let s := syncToDb s task_id task
        let s := addLog s task_id "task started" "info"
        (true, s)

/-- The loop body of `AsyncTaskManager._process_pending_queue`: while the queue
is non-empty and the cap allows a start, drop head ids whose task is missing or
no longer PENDING; on the first still-PENDING head, pop it and stop (the actual
start is left to an external caller — the popped task is not transitioned). -/
def processPendingQueueAux (tasks : List (String × AsyncTask))
    (max_concurrent : Nat) : List String → List String
  | [] => []
  | next_task_id :: rest =>
      if runningCount tasks < max_concurrent then
        match alookup tasks next_task_id with
        | some task =>
            if task.status = AsyncTaskStatus.pending then rest
            else processPendingQueueAux tasks max_concurrent rest
        | none => processPendingQueueAux tasks max_concurrent rest
      else
        next_task_id :: rest

/-- `AsyncTaskManager._process_pending_queue` (mutates only the queue). -/
def processPendingQueue (s : ManagerState) : ManagerState :=
  { s with pending_queue :=
      (processPendingQueueAux s.tasks s.max_concurrent_tasks s.pending_queue) }

/-- `AsyncTaskManager.complete_task`: schedule a log-buffer flush, mark the
task COMPLETED with progress 100, force a snapshot write, log completion, then
clean the handle map, the user-id cache and the progress cache, and finally
process the pending queue. All of this runs even when the id is unknown except
the status mutation itself. -/
def completeTask (s : ManagerState) (task_id : String) (result : String)
    (now : Int) : ManagerState :=
  let s := { s with scheduled_flushes := s.scheduled_flushes + 1 }
  let s :=
    match alookup s.tasks task_id with
    | none => s
    | some task =>
        let task := { task with
          status := AsyncTaskStatus.completed
          progress := 100
          result := some result
          completed_at := some now }
        let s := { s with tasks := aset s.tasks task_id task }
        let s := forceProgressUpdate s task_id now
        addLog s task_id "task completed" "info"
  let s := { s with running_tasks := s.running_tasks.erase task_id }
  let s := { s with task_user_ids := aremove s.task_user_ids task_id }
  let s := { s with progress_cache := aremove s.progress_cache task_id }
  processPendingQueue s

/-- `AsyncTaskManager.fail_task`: like completion, but the status becomes
FAILED with an error payload and the progress is left as it was. -/
def failTask (s : ManagerState) (task_id : String) (error : String)
    (now : Int) : ManagerState :=
  let s := { s with scheduled_flushes := s.scheduled_flushes + 1 }
  let s :=
    match alookup s.tasks task_id with
    | none => s
    | some task =>
        let task := { task with
          status := AsyncTaskStatus.failed
          error := some error
          completed_at := some now }
        let s := { s with tasks := aset s.tasks task_id task }
        let s := forceProgressUpdate s task_id now
        addLog s task_id "task failed" "error"
  let s := { s with running_tasks := s.running_tasks.erase task_id }
  let s := { s with task_user_ids := aremove s.task_user_ids task_id }
  let s := { s with progress_cache := aremove s.progress_cache task_id }
  processPendingQueue s

/-- `AsyncTaskManager.timeout_task`: mark the task TIMEOUT with a descriptive
error, force a snapshot write, log, cancel and drop the running handle, clean
the caches and process the pending queue. -/
def timeoutTask (s : ManagerState) (task_id : String) (now : Int) : ManagerState :=
  let s := { s with scheduled_flushes := s.scheduled_flushes + 1 }
  let s :=
    match alookup s.tasks task_id with
    | none => s
    | some task =>
        let task := { task with
          status := AsyncTaskStatus.timeout
          error := some "task timed out"
          completed_at := some now }
        let s := { s with tasks := aset s.tasks task_id task }
        let s := forceProgressUpdate s task_id now
        addLog s task_id "task timed out" "error"
  let s := { s with running_tasks := s.running_tasks.erase task_id }
  let s := { s with task_user_ids := aremove s.task_user_ids task_id }
  let s := { s with progress_cache := aremove s.progress_cache task_id }
  processPendingQueue s

/-- `AsyncTaskManager.cancel_task`: mark the task CANCELLED (for any id in the
map, whatever its prior status), request a plain — not forced — snapshot write,
log a warning, remove the id from the pending queue and the handle map, drop
the user-id cache entry and process the pending queue. The progress-throttle
cache entry is left untouched, unlike in the other terminal transitions. -/
def cancelTask (s : ManagerState) (task_id : String) (now : Int) : ManagerState :=
  let s :=
    match alookup s.tasks task_id with
    | none => s
    | some task =>
        let task := { task with
          status := AsyncTaskStatus.cancelled
          completed_at := some now }
        let s := { s with tasks := aset s.tasks task_id task }
        let s := syncToDb s task_id task
        addLog s task_id "task cancelled" "warning"
  let s := { s with pending_queue := s.pending_queue.erase task_id }
  let s := { s with running_tasks := s.running_tasks.erase task_id }
  let s := { s with task_user_ids := aremove s.task_user_ids task_id }
  processPendingQueue s

/-- `AsyncTaskManager._flush_log_buffer`, run by a coroutine that may or may
not already hold the buffer's `asyncio.Lock`. The lock is not reentrant: when
the calling coroutine already holds it, the `async with` acquire suspends
forever, modelled as `none`. Otherwise an empty buffer is left alone, and a
non-empty buffer is swapped for an empty one with its contents submitted as a
single batch. The result is `(remaining buffer, submitted batch)`. -/
def flushLogBuffer (lock_held_by_caller : Bool) (buffer : List LogBufferEntry) :
    Option (List LogBufferEntry × Option (List LogBufferEntry)) :=
  if lock_held_by_caller then none
  else if buffer = [] then some ([], none)
  else some ([], some buffer)

/-- `AsyncTaskManager._add_to_log_buffer`: acquire the buffer lock, append the
record, and when the buffer has reached `_LOG_BATCH_SIZE` call
`_flush_log_buffer` while still holding the non-reentrant lock. -/
def addToLogBuffer (buffer : List LogBufferEntry) (entry : LogBufferEntry) :
    Option (List LogBufferEntry × Option (List LogBufferEntry)) :=
  let buffer := buffer ++ [entry]
  if LOG_BATCH_SIZE ≤ buffer.length then
    flushLogBuffer true buffer
  else
    some (buffer, none)

/-- An id whose task exists in the map with status PENDING (the predicate the
pending-queue scan applies to each head). -/
def isPendingId (tasks : List (String × AsyncTask)) (task_id : String) : Bool :=
  match alookup tasks task_id with
  | some task => task.status == AsyncTaskStatus.pending
  | none => false

/-- Looking a key up right after setting it yields the value just set. -/
theorem alookup_aset_self {α : Type} (l : List (String × α)) (k : String) (v : α) :
    alookup (aset l k v) k = some v := by
  induction l with
  | nil => simp [aset, alookup]
  | cons hd tl ih =>
      by_cases hk : hd.1 = k
      · simp [aset, hk, alookup]
      · simp [aset, hk, alookup, ih]

/-- `_sync_to_db` only touches the write queues, never the task map. -/
theorem syncToDb_tasks (s : ManagerState) (i : String) (t : AsyncTask) :
    (syncToDb s i t).tasks = s.tasks := by
  unfold syncToDb
  dsimp only
  split <;> rfl

/-- `add_log` only touches the write queues and the scheduled log work. -/
theorem addLog_tasks (s : ManagerState) (i m l : String) :
    (addLog s i m l).tasks = s.tasks := by
  unfold addLog
  split
  · rfl
  · split
    · dsimp only
      split <;> rfl
    · rfl

/-- `force_progress_update` only touches the write queues and the throttle
cache, never the task map. -/
theorem forceProgressUpdate_tasks (s : ManagerState) (i : String) (n : Int) :
    (forceProgressUpdate s i n).tasks = s.tasks := by
  unfold forceProgressUpdate
  cases htask : alookup s.tasks i with
  | none => rfl
  | some t =>
      dsimp only
      cases hc : alookup (syncToDb s i t).progress_cache i with
      | none => simp [syncToDb_tasks]
      | some c => simp [syncToDb_tasks]

/-- `_process_pending_queue` mutates only the pending queue. -/
theorem processPendingQueue_tasks (s : ManagerState) :
    (processPendingQueue s).tasks = s.tasks := rfl

/-- A manager with cap 1 in which task `A` was created, started and completed:
the state after `create_task; start_task; complete_task` from a fresh manager. -/
def c1state : ManagerState :=
  let s := initState 1 100
  let s := (createTask s "generate" 1 "A" 0).2
  let s := (startTask s "A" 1).2
  completeTask s "A" "done" 2

/-- C1: counterexample. After `complete_task` the task `A` of `c1state` is in
the terminal status COMPLETED, yet a subsequent `cancel_task` changes its
status again, to CANCELLED: the record is observed in two terminal states, so
terminal states are not absorbing under the manager's operations. -/
theorem c1_counterexample :
    (getTask c1state "A").map AsyncTask.status = some AsyncTaskStatus.completed ∧
    (getTask (cancelTask c1state "A" 3) "A").map AsyncTask.status
      = some AsyncTaskStatus.cancelled := by
  constructor <;> decide

/-- C1 amended: the terminal-transition operations are unguarded — `cancel_task`
sets the status of any task present in the map to CANCELLED unconditionally,
even when the task is already in a terminal state such as COMPLETED; the
no-exit-from-terminal rule is enforced only by callers, not by the manager. -/
theorem c1_cancel_overwrites_any_status (s : ManagerState) (task_id : String) (now : Int)
    (h : (alookup s.tasks task_id).isSome = true) :
    (getTask (cancelTask s task_id now) task_id).map AsyncTask.status
      = some AsyncTaskStatus.cancelled := by
  obtain ⟨task, htask⟩ := Option.isSome_iff_exists.mp h
  unfold cancelTask
  rw [htask]
  dsimp only
  simp [getTask, processPendingQueue_tasks, addLog_tasks, syncToDb_tasks, alookup_aset_self]

/-- C1 witness: the amended theorem applied to the concrete completed task. -/
theorem c1_witness :
    (getTask (cancelTask c1state "A" 3) "A").map AsyncTask.status
      = some AsyncTaskStatus.cancelled :=
  c1_cancel_overwrites_any_status c1state "A" 3 (by decide)

/-- A manager with cap 1 in which `A` is RUNNING and `B` was created while the
cap was reached, so `B` sits in the pending queue. -/
def c2state : ManagerState :=
  let s := initState 1 100
  let s := (createTask s "generate" 1 "A" 0).2
  let s := (startTask s "A" 1).2
  (createTask s "generate" 1 "B" 2).2

/-- C2: the code violates the concurrency cap. In `c2state` the cap is 1 and
one task is RUNNING with `B` queued; `start_task "B"` nevertheless returns
success and transitions `B` to RUNNING, because the cap check is skipped for
ids already present in the pending queue, leaving two RUNNING tasks. -/
theorem c2_cap_bypassed_for_queued_id :
    c2state.max_concurrent_tasks = 1 ∧
    getRunningTaskCount c2state = 1 ∧
    c2state.pending_queue = ["B"] ∧
    (startTask c2state "B" 3).1 = true ∧
    getRunningTaskCount (startTask c2state "B" 3).2 = 2 := by
  refine ⟨by decide, by decide, by decide, by decide, by decide⟩

/-- C3: submitting while the pending queue already holds `queue_size` ids
fails with the capacity error and has no side effects: the state is returned
unchanged, so no record of the attempted id exists in the task map, the
pending queue or the running set. -/
theorem c3_capacity_exceeded_no_side_effects (s : ManagerState) (task_type : String)
    (total_batches : Nat) (new_id : String) (now : Int)
    (hfull : isQueueFull s = true)
    (h1 : alookup s.tasks new_id = none)
    (h2 : new_id ∉ s.pending_queue)
    (h3 : new_id ∉ s.running_tasks) :
    (createTask s task_type total_batches new_id now).1
        = Except.error "task queue is full, please retry later" ∧
    (createTask s task_type total_batches new_id now).2 = s ∧
    alookup (createTask s task_type total_batches new_id now).2.tasks new_id = none ∧
    new_id ∉ (createTask s task_type total_batches new_id now).2.pending_queue ∧
    new_id ∉ (createTask s task_type total_batches new_id now).2.running_tasks := by
  have hstate : (createTask s task_type total_batches new_id now).2 = s := by
    simp [createTask, hfull]
  refine ⟨by simp [createTask, hfull], hstate, ?_, ?_, ?_⟩
  · rw [hstate]; exact h1
  · rw [hstate]; exact h2
  · rw [hstate]; exact h3

/-- A manager with cap 1 and queue capacity 1 whose queue is full: `A` is
RUNNING and `B` occupies the single queue slot. -/
def c3state : ManagerState :=
  let s := initState 1 1
  let s := (createTask s "generate" 1 "A" 0).2
  let s := (startTask s "A" 1).2
  (createTask s "generate" 1 "B" 2).2

/-- When the cap allows a start, the pending-queue scan drops the longest
prefix of ids that are missing or no longer PENDING and then pops the first
still-PENDING id (without starting it). -/
theorem processPendingQueueAux_eq_dropWhile (tasks : List (String × AsyncTask))
    (mc : Nat) (h : runningCount tasks < mc) (q : List String) :
    processPendingQueueAux tasks mc q
      = (q.dropWhile (fun i => !(isPendingId tasks i))).drop 1 := by
  induction q with
  | nil => rfl
  | cons hd tl ih =>
      unfold processPendingQueueAux
      rw [if_pos h]
      cases htask : alookup tasks hd with
      | none => simp [List.dropWhile_cons, isPendingId, htask, ih]
      | some t =>
          by_cases hp : t.status = AsyncTaskStatus.pending
          · simp [List.dropWhile_cons, isPendingId, htask, hp]
          · simp [List.dropWhile_cons, isPendingId, htask, hp, ih]

/-- A manager with cap 1 in which `A` is RUNNING, `B` is queued, and then `A`
completes — the point at which the spec says `B` is promoted and started. -/
def c4state : ManagerState :=
  let s := initState 1 100
  let s := (createTask s "generate" 1 "A" 0).2
  let s := (startTask s "A" 1).2
  let s := (createTask s "generate" 1 "B" 2).2
  completeTask s "A" "done" 3

/-- C4: counterexample. After `A` completes, `B` has been removed from the
pending queue, yet no start was attempted on it: `B` is still PENDING and
nothing is RUNNING even though capacity allows — the promoted task does not
transition to RUNNING. -/
theorem c4_counterexample :
    c4state.pending_queue = [] ∧
    (getTask c4state "B").map AsyncTask.status = some AsyncTaskStatus.pending ∧
    getRunningTaskCount c4state = 0 ∧
    canStartNewTask c4state = true := by
  refine ⟨by decide, by decide, by decide, by decide⟩

/-- C4 amended: on a terminal transition the pending queue is scanned
head-first, ids that are missing or no longer PENDING are dropped, and the
first still-PENDING id is removed from the queue — but no start is attempted
on it: the task map (hence every status) is untouched by the queue
processing, the actual start being left to an external caller. -/
theorem c4_promotion_pops_without_starting (s : ManagerState)
    (h : getRunningTaskCount s < s.max_concurrent_tasks) :
    (processPendingQueue s).tasks = s.tasks ∧
    (processPendingQueue s).pending_queue
      = (s.pending_queue.dropWhile (fun i => !(isPendingId s.tasks i))).drop 1 :=
  ⟨rfl, processPendingQueueAux_eq_dropWhile s.tasks s.max_concurrent_tasks h s.pending_queue⟩

/-- A PENDING task record used to build small witness states. -/
def samplePendingTask : AsyncTask :=
  { task_id := "B"
    task_type := "generate"
    status := AsyncTaskStatus.pending
    progress := 0
    total_batches := 1
    completed_batches := 0
    result := none
    error := none
    message := none
    request_params := none
    user_id := none
    created_at := 0
    started_at := none
    completed_at := none }

/-- A manager whose queue holds a stale id followed by the PENDING `B`. -/
def c4wstate : ManagerState :=
  { initState 1 100 with
      tasks := [("B", samplePendingTask)]
      pending_queue := ["stale", "B"] }

/-- C4 witness: the amended theorem applied to `c4wstate`. -/
theorem c4_witness :
    (processPendingQueue c4wstate).tasks = c4wstate.tasks ∧
    (processPendingQueue c4wstate).pending_queue
      = (c4wstate.pending_queue.dropWhile (fun i => !(isPendingId c4wstate.tasks i))).drop 1 :=
  c4_promotion_pops_without_starting c4wstate (by decide)

/-- C3 witness: submitting `C` to the full `c3state` fails without side
effects. -/
theorem c3_witness :
    (createTask c3state "generate" 1 "C" 3).1
        = Except.error "task queue is full, please retry later" ∧
    (createTask c3state "generate" 1 "C" 3).2 = c3state ∧
    alookup (createTask c3state "generate" 1 "C" 3).2.tasks "C" = none ∧
    "C" ∉ (createTask c3state "generate" 1 "C" 3).2.pending_queue ∧
    "C" ∉ (createTask c3state "generate" 1 "C" 3).2.running_tasks :=
  c3_capacity_exceeded_no_side_effects c3state "generate" 1 "C" 3
    (by decide) (by decide) (by decide) (by decide)

/-- `_sync_to_db` always records the issued request in the history. -/
theorem syncToDb_issued (s : ManagerState) (i : String) (t : AsyncTask) :
    (syncToDb s i t).issued_writes
      = s.issued_writes ++ [SyncWriteRequest.snapshot i t] := by
  unfold syncToDb
  dsimp only
  split <;> rfl

/-- `_sync_to_db` never touches the throttle cache. -/
theorem syncToDb_progress_cache (s : ManagerState) (i : String) (t : AsyncTask) :
    (syncToDb s i t).progress_cache = s.progress_cache := by
  unfold syncToDb
  dsimp only
  split <;> rfl

/-- With room in the bounded queue, `_sync_to_db` enqueues the snapshot. -/
theorem syncToDb_db_queue_room (s : ManagerState) (i : String) (t : AsyncTask)
    (h : s.db_queue.length < DB_QUEUE_MAXSIZE) :
    (syncToDb s i t).db_queue = s.db_queue ++ [SyncWriteRequest.snapshot i t] := by
  unfold syncToDb
  dsimp only
  rw [if_pos h]

/-- A RUNNING task used by the C5/C8 states. -/
def c5task : AsyncTask :=
  { task_id := "A"
    task_type := "generate"
    status := AsyncTaskStatus.running
    progress := 42
    total_batches := 4
    completed_batches := 2
    result := none
    error := none
    message := none
    request_params := none
    user_id := some 1
    created_at := 0
    started_at := some 1
    completed_at := none }

/-- The throttle-cache entry of `A` before the terminal transition. -/
def c5cache : ProgressCacheEntry :=
  { last_progress := 40, last_update_time := 10, pending_message := none }

/-- A manager running `A` whose bounded write queue is completely full. -/
def c5fullqueue : ManagerState :=
  { initState 3 100 with
      tasks := [("A", c5task)]
      running_tasks := ["A"]
      progress_cache := [("A", c5cache)]
      db_queue := List.replicate DB_QUEUE_MAXSIZE SyncWriteRequest.shutdownSentinel }

/-- A manager running `A` whose bounded write queue has room. -/
def c5roomqueue : ManagerState :=
  { initState 3 100 with
      tasks := [("A", c5task)]
      running_tasks := ["A"]
      progress_cache := [("A", c5cache)] }

set_option maxRecDepth 100000 in
/-- C5: counterexample. First, with the bounded write queue full, `complete_task`
leaves the queue unchanged — the state-defining COMPLETED snapshot is dropped,
so terminal state is not guaranteed durable. Second, `cancel_task` does not go
through `force_progress_update`: the task's throttle-cache entry survives
completely untouched (a forced update would have set `last_progress` to the
task's progress and refreshed its timestamp), so the forced flush is not
invoked at every terminal transition. -/
theorem c5_counterexample :
    (completeTask c5fullqueue "A" "done" 20).db_queue = c5fullqueue.db_queue ∧
    alookup (cancelTask c5roomqueue "A" 20).progress_cache "A" = some c5cache := by
  refine ⟨by decide, by decide⟩

/-- C5 amended: `force_progress_update` on a task present in the map always
issues a snapshot write request, which the bounded queue accepts whenever it
has room, and it refreshes an existing throttle-cache entry with the task's
current progress and the current time. (It does not create a missing cache
entry; it is called by complete/fail/timeout, while `cancel_task` issues a
plain non-forced sync; and a full queue drops even a forced request.) -/
theorem c5_force_flush_behaviour (s : ManagerState) (task_id : String)
    (task : AsyncTask) (cache : ProgressCacheEntry) (now : Int)
    (h : alookup s.tasks task_id = some task)
    (hc : alookup s.progress_cache task_id = some cache)
    (hroom : s.db_queue.length < DB_QUEUE_MAXSIZE) :
    (forceProgressUpdate s task_id now).issued_writes
        = s.issued_writes ++ [SyncWriteRequest.snapshot task_id task] ∧
    (forceProgressUpdate s task_id now).db_queue
        = s.db_queue ++ [SyncWriteRequest.snapshot task_id task] ∧
    alookup (forceProgressUpdate s task_id now).progress_cache task_id
        = some { cache with last_progress := task.progress, last_update_time := now } := by
  unfold forceProgressUpdate
  rw [h]
  dsimp only
  rw [syncToDb_progress_cache, hc]
  refine ⟨?_, ?_, ?_⟩
  · simp [syncToDb_issued]
  · simp [syncToDb_db_queue_room s task_id task hroom]
  · simp [alookup_aset_self]

/-- C5 witness: the amended theorem applied to `c5roomqueue`. -/
theorem c5_witness :
    (forceProgressUpdate c5roomqueue "A" 20).issued_writes
        = c5roomqueue.issued_writes ++ [SyncWriteRequest.snapshot "A" c5task] ∧
    (forceProgressUpdate c5roomqueue "A" 20).db_queue
        = c5roomqueue.db_queue ++ [SyncWriteRequest.snapshot "A" c5task] ∧
    alookup (forceProgressUpdate c5roomqueue "A" 20).progress_cache "A"
        = some { c5cache with last_progress := c5task.progress, last_update_time := 20 } :=
  c5_force_flush_behaviour c5roomqueue "A" c5task c5cache 20
    (by decide) (by decide) (by decide)

/-- A log buffer holding nine buffered debug/info records. -/
def c6buffer : List LogBufferEntry :=
  List.replicate 9 { task_id := "A", level := "info", message := "step" }

/-- C6: the append that reaches the batch-size threshold never completes. With
nine records buffered, the tenth `_add_to_log_buffer` holds the non-reentrant
buffer lock and calls `_flush_log_buffer`, which tries to acquire that same
lock again, so the coroutine blocks forever (`none`): no atomic swap and no
batch submission happen on this path. The second conjunct shows the very same
ten-record buffer flushes fine from a caller that does not hold the lock (the
timer path), confirming the blocked acquire — not the flush logic — is at
fault. -/
theorem c6_threshold_append_deadlocks :
    addToLogBuffer c6buffer { task_id := "A", level := "info", message := "step 10" } = none ∧
    flushLogBuffer false (c6buffer ++ [{ task_id := "A", level := "info", message := "step 10" }])
      = some ([], some (c6buffer ++ [{ task_id := "A", level := "info", message := "step 10" }])) := by
  refine ⟨by decide, by decide⟩

/-- Appending an element strictly grows a list. -/
theorem append_singleton_ne {α : Type} (l : List α) (x : α) : l ++ [x] ≠ l := by
  intro he
  have hlen := congrArg List.length he
  simp at hlen

/-- The spec's five persistence conditions for a progress update (§4.5 of the
spec): boundary values 0 and 100 (tested on the raw argument), no prior
persisted value, absolute delta of the clamped in-memory progress from the
last persisted progress at least the threshold, or the throttle interval
elapsed since the last persist. -/
def throttleCond (s : ManagerState) (task_id : String) (progress : Int) (now : Int) : Prop :=
  let cache := (alookup s.progress_cache task_id).getD
    { last_progress := -1, last_update_time := 0, pending_message := none }
  progress = 0 ∨ progress = 100 ∨ cache.last_progress = -1
    ∨ PROGRESS_UPDATE_THRESHOLD ≤ |min (max progress 0) 100 - cache.last_progress|
    ∨ PROGRESS_UPDATE_INTERVAL ≤ now - cache.last_update_time

/-- The RUNNING task of scenario D, freshly started (no throttle cache). -/
def scenarioTask : AsyncTask :=
  { task_id := "A"
    task_type := "generate"
    status := AsyncTaskStatus.running
    progress := 5
    total_batches := 4
    completed_batches := 0
    result := none
    error := none
    message := none
    request_params := none
    user_id := some 1
    created_at := 40
    started_at := some 41
    completed_at := none }

/-- Scenario D start state: `A` RUNNING, empty throttle cache. -/
def scenarioS0 : ManagerState :=
  { initState 3 100 with tasks := [("A", scenarioTask)], running_tasks := ["A"] }

/-- Scenario D after the update to 0 (same second, t = 50). -/
def scenarioS1 : ManagerState := updateProgress scenarioS0 "A" 0 none 50

/-- Scenario D after the update to 3. -/
def scenarioS2 : ManagerState := updateProgress scenarioS1 "A" 3 none 50

/-- Scenario D after the update to 9. -/
def scenarioS3 : ManagerState := updateProgress scenarioS2 "A" 9 none 50

/-- Scenario D after the update to 100. -/
def scenarioS4 : ManagerState := updateProgress scenarioS3 "A" 100 none 50

/-- C7: `update_progress` on an existing task issues a persistence write
request exactly when one of the spec's five conditions holds (`throttleCond`),
and in scenario D — updates 0, 3, 9, 100 within the same second — exactly the
updates 0, 9 and 100 issue a write request while 3 does not (the issued-write
history grows 1, 1, 2, 3). -/
theorem c7_throttle_exactness (s : ManagerState) (task_id : String) (task : AsyncTask)
    (progress : Int) (message : Option String) (now : Int)
    (h : alookup s.tasks task_id = some task) :
    ((updateProgress s task_id progress message now).issued_writes ≠ s.issued_writes
        ↔ throttleCond s task_id progress now) ∧
    scenarioS1.issued_writes.length = 1 ∧
    scenarioS2.issued_writes.length = 1 ∧
    scenarioS3.issued_writes.length = 2 ∧
    scenarioS4.issued_writes.length = 3 := by
  refine ⟨?_, by decide, by decide, by decide, by decide⟩
  unfold updateProgress
  rw [h]
  dsimp only
  by_cases hm : msgTruthy message = true
  · simp only [hm, if_true]
    split
    next hcnd =>
      refine iff_of_true ?_ ?_
      · simp only [syncToDb_issued]
        exact append_singleton_ne _ _
      · unfold throttleCond
        exact hcnd
    next hcnd =>
      refine iff_of_false (fun hne => hne rfl) ?_
      intro ht
      exact hcnd ht
  · simp only [Bool.not_eq_true] at hm
    simp only [hm, Bool.false_eq_true, if_false]
    split
    next hcnd =>
      refine iff_of_true ?_ ?_
      · simp only [syncToDb_issued]
        exact append_singleton_ne _ _
      · unfold throttleCond
        exact hcnd
    next hcnd =>
      refine iff_of_false (fun hne => hne rfl) ?_
      intro ht
      exact hcnd ht

/-- C7 witness: the exactness theorem applied at scenario D's first update. -/
theorem c7_witness :
    ((updateProgress scenarioS0 "A" 0 none 50).issued_writes ≠ scenarioS0.issued_writes
        ↔ throttleCond scenarioS0 "A" 0 50) ∧
    scenarioS1.issued_writes.length = 1 ∧
    scenarioS2.issued_writes.length = 1 ∧
    scenarioS3.issued_writes.length = 2 ∧
    scenarioS4.issued_writes.length = 3 :=
  c7_throttle_exactness scenarioS0 "A" scenarioTask 0 none 50 (by decide)

/-- `_sync_to_db` grows the bounded queue exactly when it has room. -/
theorem syncToDb_db_queue (s : ManagerState) (i : String) (t : AsyncTask) :
    (syncToDb s i t).db_queue =
      if s.db_queue.length < DB_QUEUE_MAXSIZE then
        s.db_queue ++ [SyncWriteRequest.snapshot i t]
      else s.db_queue := by
  unfold syncToDb
  dsimp only
  split
  next hlt => rfl
  next hge => rfl

/-- The RUNNING task of the C8 counterexample: in-memory progress 98, last
persisted progress 98 a moment ago. -/
def c8task : AsyncTask :=
  { task_id := "A"
    task_type := "generate"
    status := AsyncTaskStatus.running
    progress := 98
    total_batches := 4
    completed_batches := 4
    result := none
    error := none
    message := none
    request_params := none
    user_id := some 1
    created_at := 0
    started_at := some 1
    completed_at := none }

/-- Manager running `A` at progress 98, with 98 just persisted at t = 100. -/
def c8state : ManagerState :=
  { initState 3 100 with
      tasks := [("A", c8task)]
      running_tasks := ["A"]
      progress_cache :=
        [("A", { last_progress := 98, last_update_time := 100, pending_message := none })] }

/-- C8: counterexample. `update_progress` with the out-of-range value 150 at
t = 100 clamps the in-memory progress to 100, but the boundary test uses the
raw argument (150 ≠ 100), the delta from the last persisted value is 2 < 5
and no time has elapsed — so no write request is issued at all: the in-memory
progress is 100 while the last persisted progress remains 98. -/
theorem c8_counterexample :
    (getTask (updateProgress c8state "A" 150 none 100) "A").map AsyncTask.progress
        = some 100 ∧
    (updateProgress c8state "A" 150 none 100).issued_writes = c8state.issued_writes ∧
    (alookup (updateProgress c8state "A" 150 none 100).progress_cache "A").map
        ProgressCacheEntry.last_progress = some 98 := by
  refine ⟨by decide, by decide, by decide⟩

/-- C8 amended: when `update_progress` is called with the argument exactly 0
or exactly 100 (the in-range boundary values), a write request is issued whose
snapshot carries progress equal to the argument, which also equals the
in-memory progress; and a forced flush always carries the in-memory record
itself. (An out-of-range argument clamped to a boundary value may issue no
write, as the counterexample shows.) -/
theorem c8_boundary_forced_match (s : ManagerState) (task_id : String) (task : AsyncTask)
    (progress : Int) (message : Option String) (now : Int)
    (h : alookup s.tasks task_id = some task)
    (hroom : s.db_queue.length < DB_QUEUE_MAXSIZE)
    (hp : progress = 0 ∨ progress = 100) :
    (∃ t', getTask (updateProgress s task_id progress message now) task_id = some t'
        ∧ t'.progress = progress
        ∧ (updateProgress s task_id progress message now).db_queue
            = s.db_queue ++ [SyncWriteRequest.snapshot task_id t']) ∧
    (forceProgressUpdate s task_id now).db_queue
        = s.db_queue ++ [SyncWriteRequest.snapshot task_id task] := by
  have hclamp : min (max progress 0) 100 = progress := by
    rcases hp with rfl | rfl <;> decide
  constructor
  · unfold updateProgress
    rw [h]
    dsimp only
    by_cases hm : msgTruthy message = true
    · simp only [hm, if_true]
      split
      next hcnd =>
        refine ⟨{ task with progress := min (max progress 0) 100, message := message },
          ?_, ?_, ?_⟩
        · unfold getTask
          dsimp only
          simp only [syncToDb_tasks]
          exact alookup_aset_self _ _ _
        · exact hclamp
        · dsimp only
          simp only [syncToDb_db_queue]
          rw [if_pos hroom]
      next hcnd =>
        exact absurd (hp.elim Or.inl (fun h2 => Or.inr (Or.inl h2))) hcnd
    · simp only [Bool.not_eq_true] at hm
      simp only [hm, Bool.false_eq_true, if_false]
      split
      next hcnd =>
        refine ⟨{ task with progress := min (max progress 0) 100 }, ?_, ?_, ?_⟩
        · unfold getTask
          dsimp only
          simp only [syncToDb_tasks]
          exact alookup_aset_self _ _ _
        · exact hclamp
        · dsimp only
          simp only [syncToDb_db_queue]
          rw [if_pos hroom]
      next hcnd =>
        exact absurd (hp.elim Or.inl (fun h2 => Or.inr (Or.inl h2))) hcnd
  · unfold forceProgressUpdate
    rw [h]
    dsimp only
    rw [syncToDb_progress_cache]
    cases hc : alookup s.progress_cache task_id with
    | none =>
        simp only [syncToDb_db_queue]
        rw [if_pos hroom]
    | some c =>
        dsimp only
        simp only [syncToDb_db_queue]
        rw [if_pos hroom]

/-- C8 witness: the amended theorem applied at the in-range boundary 100. -/
theorem c8_witness :
    (∃ t', getTask (updateProgress c8state "A" 100 none 100) "A" = some t'
        ∧ t'.progress = 100
        ∧ (updateProgress c8state "A" 100 none 100).db_queue
            = c8state.db_queue ++ [SyncWriteRequest.snapshot "A" t']) ∧
    (forceProgressUpdate c8state "A" 100).db_queue
        = c8state.db_queue ++ [SyncWriteRequest.snapshot "A" c8task] :=
  c8_boundary_forced_match c8state "A" c8task 100 none 100
    (by decide) (by decide) (Or.inr rfl)

/-- A RUNNING task with a single batch, for the C9 counterexample. -/
def c9task : AsyncTask :=
  { task_id := "A"
    task_type := "generate"
    status := AsyncTaskStatus.running
    progress := 5
    total_batches := 1
    completed_batches := 0
    result := none
    error := none
    message := none
    request_params := none
    user_id := some 1
    created_at := 0
    started_at := some 1
    completed_at := none }

/-- Manager running the single-batch task `A`. -/
def c9state : ManagerState :=
  { initState 3 100 with tasks := [("A", c9task)], running_tasks := ["A"] }

/-- C9: counterexample. Reporting 2 completed batches out of 1 drives the
derived progress to `int(5 + (2 / 1) * 90) = 185`, far above 100: the code
does not clamp `completed_batches` against `total_batches`, so the progress
invariant `[0, 100]` fails on over-reported completion. -/
theorem c9_counterexample :
    (getTask (updateTaskProgress c9state "A" 2) "A").map AsyncTask.progress
        = some 185 ∧
    ¬ ((185 : Int) ≤ 100) := by
  refine ⟨by decide, by decide⟩

/-- C9 amended: as long as `completed_batches ≤ total_batches` (and there is
at least one batch), `update_task_progress` keeps the derived progress within
`[5, 95]` — in particular within `[0, 100]`; the bound is lost only when the
caller over-reports completion. -/
theorem c9_batch_progress_bounded (s : ManagerState) (task_id : String) (task : AsyncTask)
    (completed_batches : Nat)
    (h : alookup s.tasks task_id = some task)
    (htb : 0 < task.total_batches)
    (hcb : completed_batches ≤ task.total_batches) :
    ∃ t', getTask (updateTaskProgress s task_id completed_batches) task_id = some t'
      ∧ 5 ≤ t'.progress ∧ t'.progress ≤ 95 := by
  unfold updateTaskProgress
  rw [h]
  dsimp only
  rw [if_pos htb]
  refine ⟨{ task with
      completed_batches := completed_batches
      progress := ((5 + 90 * completed_batches / task.total_batches : Nat) : Int) },
    ?_, ?_, ?_⟩
  · unfold getTask
    simp only [syncToDb_tasks]
    exact alookup_aset_self _ _ _
  · show (5 : Int) ≤ ((5 + 90 * completed_batches / task.total_batches : Nat) : Int)
    exact_mod_cast Nat.le_add_right 5 (90 * completed_batches / task.total_batches)
  · show ((5 + 90 * completed_batches / task.total_batches : Nat) : Int) ≤ (95 : Int)
    have hmul : 90 * completed_batches ≤ 90 * task.total_batches :=
      Nat.mul_le_mul_left 90 hcb
    have hdiv : 90 * completed_batches / task.total_batches ≤ 90 := by
      have h2 := Nat.div_le_div_right (c := task.total_batches) hmul
      rwa [Nat.mul_div_cancel _ htb] at h2
    revert hdiv
    generalize 90 * completed_batches / task.total_batches = d
    intro hdiv
    have hsum : 5 + d ≤ 95 := by omega
    exact_mod_cast hsum

/-- C9 witness: the amended bound applied to the single-batch task with its
one batch completed (progress becomes 95). -/
theorem c9_witness :
    ∃ t', getTask (updateTaskProgress c9state "A" 1) "A" = some t'
      ∧ 5 ≤ t'.progress ∧ t'.progress ≤ 95 :=
  c9_batch_progress_bounded c9state "A" c9task 1 (by decide) (by decide) (by decide)

/-- A manager with cap 1 obtained by creating `A`, `B`, `C`, starting `A`
(queueing `B` and `C`) and then cancelling `A`: the cancellation's queue
processing popped `B` (still PENDING, never started), leaving queue `["C"]`
and nothing RUNNING. -/
def c10state : ManagerState :=
  let s := initState 1 100
  let s := (createTask s "generate" 1 "A" 0).2
  let s := (startTask s "A" 1).2
  let s := (createTask s "generate" 1 "B" 2).2
  let s := (createTask s "generate" 1 "C" 3).2
  cancelTask s "A" 4

/-- C10: counterexample. `complete_task` called with an id absent from the
task map still runs the pending-queue processing: on `c10state` (queue
`["C"]`, capacity available) it removes `C` from the queue, so the operation
is not a no-op on the pending queue. -/
theorem c10_counterexample :
    getTask c10state "unknown" = none ∧
    c10state.pending_queue = ["C"] ∧
    (completeTask c10state "unknown" "r" 5).pending_queue = [] := by
  refine ⟨by decide, by decide, by decide⟩

/-- C10 amended: on an id absent from the task map, `get_task` returns None,
`start_task` returns False leaving the state unchanged, and the progress
updates leave the state unchanged; the four terminal transitions return
nothing and leave the task map (hence every task record) unchanged, but they
still run the pending-queue processing, which may mutate the pending queue. -/
theorem c10_unknown_id_behaviour (s : ManagerState) (task_id : String)
    (p : Int) (msg : Option String) (cb : Nat) (r e : String) (now : Int)
    (h : alookup s.tasks task_id = none) :
    getTask s task_id = none ∧
    startTask s task_id now = (false, s) ∧
    updateProgress s task_id p msg now = s ∧
    updateTaskProgress s task_id cb = s ∧
    (completeTask s task_id r now).tasks = s.tasks ∧
    (failTask s task_id e now).tasks = s.tasks ∧
    (timeoutTask s task_id now).tasks = s.tasks ∧
    (cancelTask s task_id now).tasks = s.tasks := by
  refine ⟨h, ?_, ?_, ?_, ?_, ?_, ?_, ?_⟩
  · unfold startTask
    rw [h]
  · unfold updateProgress
    rw [h]
  · unfold updateTaskProgress
    rw [h]
  · unfold completeTask
    dsimp only
    rw [h]
    rfl
  · unfold failTask
    dsimp only
    rw [h]
    rfl
  · unfold timeoutTask
    dsimp only
    rw [h]
    rfl
  · unfold cancelTask
    dsimp only
    rw [h]
    rfl

/-- C10 witness: the amended theorem applied to `c10state` and the id
`"unknown"`. -/
theorem c10_witness :
    getTask c10state "unknown" = none ∧
    startTask c10state "unknown" 5 = (false, c10state) ∧
    updateProgress c10state "unknown" 7 none 5 = c10state ∧
    updateTaskProgress c10state "unknown" 1 = c10state ∧
    (completeTask c10state "unknown" "r" 5).tasks = c10state.tasks ∧
    (failTask c10state "unknown" "e" 5).tasks = c10state.tasks ∧
    (timeoutTask c10state "unknown" 5).tasks = c10state.tasks ∧
    (cancelTask c10state "unknown" 5).tasks = c10state.tasks :=
  c10_unknown_id_behaviour c10state "unknown" 7 none 1 "r" "e" 5 (by decide)

end Testflow
